import Mathlib

/-!
Shallow embedding of the request-routing core of the reverse proxy in
src/router.go, together with a reference formalisation of the selection
algorithm described in the specification (spec.md §4.1).

Conventions used throughout:

* Go `int32` values are modelled as `Int` together with explicit twos
  complement wrapping (`wrap32`); Go `%` on signed integers is truncated
  division, modelled by `Int.tmod`.  Go `%` panics when the divisor is
  zero; panics are modelled by the `GoResult.panic` constructor.
* Go multi-value returns `(value, error)` are modelled either by
  `GoResult` (panic / error return / normal return) or, where the Go
  function returns data alongside a possibly non-nil error, by an `ok`
  value carrying an `Option String` error component.
* External collaborators (the routes backend, `net.SplitHostPort`,
  `net.ParseIP`, `url.Parse`, uuid generation, the upstream transport,
  the dialer and the hijacker) are parameters of the definitions: the
  embedding quantifies over their behaviour.
* Wall-clock time is an `Int` counted in seconds, so the 2 second cache
  TTL of `getBackends` is the literal `2`.
-/

/-- Outcome of running a piece of Go code: a runtime panic, an error
return (`err != nil`), or a normal return. -/
inductive GoResult (α : Type) where
  | panic (msg : String)
  | fail (msg : String)
  | ok (val : α)
  deriving Repr, DecidableEq

/-- Twos complement wrap of an integer into the `int32` range
`[-2147483648, 2147483648)`; models Go `int32` overflow. -/
def wrap32 (z : Int) : Int :=
  (z + 2147483648) % 4294967296 - 2147483648

/-- The scan loop of `getRequestData` (src/router.go lines 215-225).
`chosen` is the current candidate index, `n` the Go `int32(backendLen)`,
`k0` the starting index `initialNumber`.  The loop body first tests the
dead set, then advances `chosenNumber = (chosenNumber + 1) % n` with Go
`int32` arithmetic and stops when it returns to `k0`.  `fuel` bounds the
recursion; whenever `k0` lies in `[0, n)` the Go loop performs at most
`n` membership tests, so fuel `n` is never exhausted on the arguments
`getRequestData` supplies (for a snapshot whose dead set contains
negative keys the Go loop can spin forever; no such snapshot exists). -/
def scanLoop (dead : Finset Int) (n : Int) (k0 : Int) : Int → Nat → Option Int
  | _, 0 => none
  | chosen, fuel + 1 =>
    if chosen ∈ dead then
      let next := (wrap32 (chosen + 1)).tmod n
      if next = k0 then none else scanLoop dead n k0 next fuel
    else some chosen

/-- Selection core of `getRequestData` (src/router.go lines 211-231),
given the snapshot fields and the per-host round-robin counter value
`counter` (the Go `int32` stored in `router.roundRobin[host]` before
this request).  Steps, in source order:
`initialNumber := atomic.AddInt32(roundRobin, 1)` (wrapping increment),
`initialNumber = (initialNumber - 1) % int32(backendLen)` (panics when
the backend list is empty), the scan loop, the `toUseNumber == -1`
check, and finally `set.backends[toUseNumber]` which panics when the
chosen index is outside the list. -/
def selectBackend (backends : List String) (dead : Finset Int) (counter : Int) :
    GoResult (Int × String) :=
  let backendLen : Int := backends.length
  let n32 : Int := wrap32 backendLen
  let initialNumber : Int := wrap32 (counter + 1)
  if n32 = 0 then GoResult.panic "integer divide by zero"
  else
    let k0 : Int := (wrap32 (initialNumber - 1)).tmod n32
    let toUse : Int :=
      match scanLoop dead n32 k0 k0 backends.length with
      | none => -1
      | some j => j
    if toUse = -1 then GoResult.fail "all backends are dead"
    else if 0 ≤ toUse ∧ toUse < backendLen then
      GoResult.ok (toUse, backends.getD toUse.toNat "")
    else GoResult.panic "index out of range"

/-- Reference scan, following the words of the spec (§4.1): starting at
`k0`, scan forward modulo `n`; the first index not in `dead` is the
choice; if the scan returns to `k0` without finding a live index the
selection fails.  Arithmetic here is exact (`Nat`), unlike the Go code.
Fuel `n` corresponds to scanning the ring exactly once. -/
def specScan (dead : Finset Int) (n : Nat) (k0 : Nat) : Nat → Nat → Option Nat
  | _, 0 => none
  | chosen, fuel + 1 =>
    if (chosen : Int) ∈ dead then
      let next := (chosen + 1) % n
      if next = k0 then none else specScan dead n k0 next fuel
    else some chosen

/-- Reference selection algorithm, following the words of the spec
(§4.1): after the counter has been incremented to `counter`, let
`k0 = (counter - 1) mod N` and scan forward from `k0` around the ring
exactly once; `none` means `AllBackendsDead`. -/
def specSelect (counter : Int) (n : Nat) (dead : Finset Int) : Option Nat :=
  if n = 0 then none
  else
    let k0 : Nat := ((counter - 1) % (n : Int)).toNat
    specScan dead n k0 k0 n

example : selectBackend ["http://a", "http://b"] ∅ 0 = GoResult.ok (0, "http://a") := by rfl
example : selectBackend ["http://a", "http://b"] {0} 0 = GoResult.ok (1, "http://b") := by rfl
example : selectBackend ["http://a", "http://b"] {0, 1} 5 = GoResult.fail "all backends are dead" := by rfl
example : selectBackend [] ∅ 0 = GoResult.panic "integer divide by zero" := by rfl
example : selectBackend ["http://a", "http://b"] ∅ (-3) = GoResult.fail "all backends are dead" := by rfl
example : selectBackend ["http://a", "http://b", "http://c"] ∅ (-5) = GoResult.panic "index out of range" := by rfl
example : specSelect (-2) 2 ∅ = some 1 := by rfl

theorem wrap32_eq_self (z : Int) (h1 : -2147483648 ≤ z) (h2 : z < 2147483648) :
    wrap32 z = z := by
  unfold wrap32
  omega

theorem tmod_natCast (a b : Nat) : Int.tmod (a : Int) (b : Int) = ((a % b : Nat) : Int) := rfl

theorem scanLoop_some_not_mem (dead : Finset Int) (n : Int) (k0 : Int) :
    ∀ (fuel : Nat) (chosen j : Int),
      scanLoop dead n k0 chosen fuel = some j → j ∉ dead := by
  intro fuel
  induction fuel with
  | zero => intro chosen j h; simp [scanLoop] at h
  | succ fuel ih =>
    intro chosen j h
    rw [scanLoop] at h
    by_cases hd : chosen ∈ dead
    · simp only [hd, if_true] at h
      by_cases hk : (wrap32 (chosen + 1)).tmod n = k0
      · simp [hk] at h
      · simp only [hk, if_false] at h
        exact ih _ _ h
    · simp only [hd, if_false] at h
      cases h
      exact hd

theorem specScan_some_lt (dead : Finset Int) (n : Nat) (k0 : Nat) :
    ∀ (fuel chosen j : Nat), chosen < n →
      specScan dead n k0 chosen fuel = some j → j < n := by
  intro fuel
  induction fuel with
  | zero => intro chosen j _ h; simp [specScan] at h
  | succ fuel ih =>
    intro chosen j hlt h
    rw [specScan] at h
    by_cases hd : (chosen : Int) ∈ dead
    · simp only [hd, if_true] at h
      by_cases hk : (chosen + 1) % n = k0
      · simp [hk] at h
      · simp only [hk, if_false] at h
        exact ih _ _ (Nat.mod_lt _ (by omega)) h
    · simp only [hd, if_false] at h
      cases h
      exact hlt

theorem scanLoop_eq_specScan (dead : Finset Int) (n : Nat) (hn : 0 < n)
    (hn31 : (n : Int) < 2147483648) (k0 : Nat) :
    ∀ (fuel chosen : Nat), chosen < n →
      scanLoop dead (n : Int) (k0 : Int) (chosen : Int) fuel =
        (specScan dead n k0 chosen fuel).map (fun j => (j : Int)) := by
  intro fuel
  induction fuel with
  | zero => intro chosen _; simp [scanLoop, specScan]
  | succ fuel ih =>
    intro chosen hlt
    rw [scanLoop, specScan]
    by_cases hd : (chosen : Int) ∈ dead
    · simp only [hd, if_true]
      have hwrap : wrap32 ((chosen : Int) + 1) = ((chosen + 1 : Nat) : Int) := by
        rw [wrap32_eq_self] <;> push_cast <;> omega
      have hnext : (wrap32 ((chosen : Int) + 1)).tmod (n : Int) =
          (((chosen + 1) % n : Nat) : Int) := by
        rw [hwrap, tmod_natCast]
      rw [hnext]
      by_cases hk : (chosen + 1) % n = k0
      · simp [hk]
      · have hk' : ¬ ((((chosen + 1) % n : Nat) : Int) = (k0 : Int)) := by
          exact_mod_cast hk
        simp only [hk, hk', if_false]
        exact ih _ (Nat.mod_lt _ (by omega))
    · simp [hd]

/-- C1 (amended): for any host with `N ≥ 1` backends, as long as the
incremented per-host counter is still a nonnegative `int32` (no
overflow into negative values has occurred), the selection performed by
`getRequestData` equals the reference algorithm of the spec: with
`k0 = (counter - 1) mod N`, scan forward from `k0` modulo `N` and
return the first index not in the dead set; if every index around the
full ring is dead, fail with the all-backends-dead error after scanning
the ring exactly once. -/
theorem selectBackend_eq_specSelect (backends : List String) (dead : Finset Int) (c : Int)
    (hn : 1 ≤ backends.length) (hn31 : (backends.length : Int) < 2147483648)
    (hc0 : 0 ≤ c) (hc1 : c + 1 < 2147483648) :
    selectBackend backends dead c =
      match specSelect (c + 1) backends.length dead with
      | some j => GoResult.ok ((j : Int), backends.getD j "")
      | none => GoResult.fail "all backends are dead" := by
  have hzn : (0 : Int) ≤ (backends.length : Int) := Int.natCast_nonneg _
  have hn0 : ¬ (backends.length = 0) := by omega
  have hzn0 : ¬ ((backends.length : Int) = 0) := by
    intro h
    omega
  have hw1 : wrap32 (backends.length : Int) = (backends.length : Int) :=
    wrap32_eq_self _ (by omega) hn31
  have hc : c + 1 - 1 = c := by ring
  have hw2 : wrap32 (c + 1) = c + 1 := wrap32_eq_self _ (by omega) (by omega)
  have hw3 : wrap32 c = c := wrap32_eq_self _ (by omega) (by omega)
  have hmn : Int.tmod c (backends.length : Int) = ((c.toNat % backends.length : Nat) : Int) := by
    conv_lhs => rw [← Int.toNat_of_nonneg hc0]
    rw [tmod_natCast]
  have hmlt : c.toNat % backends.length < backends.length := Nat.mod_lt _ (by omega)
  have hkspec : (c % (backends.length : Int)).toNat = c.toNat % backends.length := by
    conv_lhs => rw [← Int.toNat_of_nonneg hc0]
    rw [← Int.natCast_mod, Int.toNat_natCast]
  simp only [selectBackend, specSelect, hn0, if_false, hw1, hzn0, hw2, hc, hw3, hkspec, hmn]
  rw [scanLoop_eq_specScan dead backends.length (by omega) hn31 _ backends.length _ hmlt]
  cases hscan : specScan dead backends.length (c.toNat % backends.length)
      (c.toNat % backends.length) backends.length with
  | none => simp
  | some j =>
    have hj : j < backends.length :=
      specScan_some_lt dead backends.length _ backends.length _ j hmlt hscan
    have hj0 : (0 : Int) ≤ (j : Int) := Int.natCast_nonneg _
    have hjne : ¬ ((j : Int) = -1) := by omega
    have hjlt : (j : Int) < (backends.length : Int) := by exact_mod_cast hj
    simp [hjne, hj0, hjlt, Int.toNat_natCast]

/-- Witness for C1: concrete run with three backends, dead set `{1}`
and counter `1`; the hypotheses of `selectBackend_eq_specSelect` are
discharged by computation. -/
theorem selectBackend_eq_specSelect_witness :
    selectBackend ["http://a", "http://b", "http://c"] {1} 1 =
      match specSelect (1 + 1) (["http://a", "http://b", "http://c"].length) {1} with
      | some j => GoResult.ok ((j : Int), ["http://a", "http://b", "http://c"].getD j "")
      | none => GoResult.fail "all backends are dead" :=
  selectBackend_eq_specSelect ["http://a", "http://b", "http://c"] {1} 1
    (by decide) (by decide) (by decide) (by decide)

/-- Counterexample to C1 as stated: with two backends, an empty dead
set and per-host counter `-3` (a value the `int32` counter reaches
after overflow), `getRequestData` computes the starting index with Go
truncated `%`, obtains `-1`, and returns the all-backends-dead error,
while the reference algorithm of the spec selects index `1`; so the
selection does not equal the reference algorithm for every counter
state. -/
theorem selectBackend_overflow_diverges :
    selectBackend ["http://a", "http://b"] ∅ (-3) ≠
      match specSelect (-3 + 1) (["http://a", "http://b"].length) ∅ with
      | some j => GoResult.ok ((j : Int), ["http://a", "http://b"].getD j "")
      | none => GoResult.fail "all backends are dead" := by
  decide

/-- C2: whenever the selection in `getRequestData` returns normally,
the returned index is not in the dead set of the snapshot (stated with the
hypotheses of the claim: at least one backend and at least one live
index). -/
theorem selectBackend_never_dead (backends : List String) (dead : Finset Int) (c : Int)
    (i : Int) (u : String)
    (hn : 1 ≤ backends.length)
    (hlive : ∃ j : Nat, j < backends.length ∧ (j : Int) ∉ dead)
    (hok : selectBackend backends dead c = GoResult.ok (i, u)) :
    i ∉ dead := by
  simp only [selectBackend] at hok
  by_cases h0 : wrap32 (backends.length : Int) = 0
  · simp [h0] at hok
  · simp only [h0, if_false] at hok
    cases hscan : scanLoop dead (wrap32 (backends.length : Int))
        ((wrap32 (wrap32 (c + 1) - 1)).tmod (wrap32 (backends.length : Int)))
        ((wrap32 (wrap32 (c + 1) - 1)).tmod (wrap32 (backends.length : Int)))
        backends.length with
    | none => rw [hscan] at hok; simp at hok
    | some j =>
      rw [hscan] at hok
      have hjd : j ∉ dead := scanLoop_some_not_mem dead _ _ _ _ _ hscan
      by_cases hj1 : j = -1
      · simp [hj1] at hok
      · by_cases hb : 0 ≤ j ∧ j < (backends.length : Int)
        · rw [if_neg hj1, if_pos hb] at hok
          injection hok with h
          have h1 : j = i := by simpa using congrArg Prod.fst h
          rw [← h1]
          exact hjd
        · simp [hj1, hb] at hok

/-- Witness for C2: with backends `["http://a", "http://b"]`, dead set
`{0}` and counter `0` the selection returns index `1`, which is not in
the dead set. -/
theorem selectBackend_never_dead_witness : (1 : Int) ∉ ({0} : Finset Int) :=
  selectBackend_never_dead ["http://a", "http://b"] {0} 0 1 "http://b" (by decide)
    ⟨1, by decide⟩ (by rfl)

/-- C4 evaluation: with three backends, an empty dead set and per-host
counter `-5` (reached after `int32` overflow), the Go truncated `%`
yields starting index `-2`; the index escapes `[0, N)` and indexing
`set.backends[-2]` panics, contradicting the claim that overflow is
harmless because selection is taken modulo `N`. -/
theorem selectBackend_negative_counter_panics :
    selectBackend ["http://a", "http://b", "http://c"] ∅ (-5) =
      GoResult.panic "index out of range" := rfl

/-- First value stored under key `k`, or `""`; models `http.Header.Get`. -/
def headerGet (h : List (String × String)) (k : String) : String :=
  match h.find? (fun p => p.1 == k) with
  | some p => p.2
  | none => ""

/-- Replace all values under key `k` by the single value `v`; models
`http.Header.Set`. -/
def headerSet (h : List (String × String)) (k v : String) : List (String × String) :=
  (k, v) :: h.filter (fun p => p.1 != k)

/-- Remove key `k`; models `http.Header.Del`. -/
def headerDel (h : List (String × String)) (k : String) : List (String × String) :=
  h.filter (fun p => p.1 != k)

/-- All values under key `k`; models indexing `req.Header[k]`. -/
def headerValues (h : List (String × String)) (k : String) : List String :=
  (h.filter (fun p => p.1 == k)).map (fun p => p.2)

theorem headerGet_set_self (h : List (String × String)) (k v : String) :
    headerGet (headerSet h k v) k = v := by
  simp [headerGet, headerSet, List.find?]

theorem find?_filter_other (k k' : String) (hne : k' ≠ k) :
    ∀ h : List (String × String),
      (h.filter (fun p => p.1 != k)).find? (fun p => p.1 == k') =
        h.find? (fun p => p.1 == k') := by
  intro h
  induction h with
  | nil => rfl
  | cons p t iht =>
    rw [List.filter_cons]
    by_cases hp : p.1 = k
    · have h1 : (p.1 != k) = false := by simp [hp]
      have h2 : (p.1 == k') = false := by
        simp only [beq_eq_false_iff_ne, ne_eq, hp]
        exact fun hh => hne hh.symm
      rw [h1]
      simp only [Bool.false_eq_true, if_false]
      rw [List.find?_cons_of_neg _ (by simp [h2])]
      exact iht
    · have h1 : (p.1 != k) = true := by simp [hp]
      rw [h1]
      simp only [if_true]
      by_cases hq : p.1 = k'
      · have h3 : (p.1 == k') = true := by simp [hq]
        rw [List.find?_cons_of_pos _ (by simp [h3]), List.find?_cons_of_pos _ (by simp [h3])]
      · have h3 : (p.1 == k') = false := by simp [hq]
        rw [List.find?_cons_of_neg _ (by simp [h3]), List.find?_cons_of_neg _ (by simp [h3])]
        exact iht

theorem headerGet_set_other (h : List (String × String)) (k v k' : String) (hne : k' ≠ k) :
    headerGet (headerSet h k v) k' = headerGet h k' := by
  have hkk : (k == k') = false := by simp; exact fun hh => hne hh.symm
  simp only [headerGet, headerSet, List.find?, hkk]
  rw [find?_filter_other k k' hne]

theorem headerGet_del_other (h : List (String × String)) (k k' : String) (hne : k' ≠ k) :
    headerGet (headerDel h k) k' = headerGet h k' := by
  simp only [headerGet, headerDel]
  rw [find?_filter_other k k' hne]

/-- Snapshot of the backend mapping for one host (src/router.go lines
151-156).  `expires` is an absolute time in seconds. -/
structure backendSet where
  id : String
  backends : List String
  dead : Finset Int
  expires : Int
  deriving DecidableEq

/-- `backendSet.Expired` (src/router.go lines 158-160):
`time.Now().After(s.expires)`, i.e. strictly after the deadline. -/
def backendSet.Expired (s : backendSet) (now : Int) : Bool :=
  decide (s.expires < now)

/-- The fetch-and-install path of `getBackends` (src/router.go lines
169-177): ask the routes backend, wrap its error, otherwise stamp
`expires = now + 2s` and install the snapshot into the LRU.  The
result pairs the returned snapshot with the entry installed into the
cache (`none` when nothing was installed). -/
def getBackendsFetch (now : Int)
    (fetch : Except String (String × List String × Finset Int)) :
    Except String (backendSet × Option backendSet) :=
  match fetch with
  | Except.error e => Except.error ("error running routes backend commands: " ++ e)
  | Except.ok (i, bs, dd) =>
    let s : backendSet := { id := i, backends := bs, dead := dd, expires := now + 2 }
    Except.ok (s, some s)

/-- `getBackends` (src/router.go lines 162-178).  `cached` is the LRU
entry under the host (`router.cache.Get`), `fetch` the reply of
`router.backend.Backends(host)` and `now` the current time in
seconds. -/
def getBackends (cached : Option backendSet) (now : Int)
    (fetch : Except String (String × List String × Finset Int)) :
    Except String (backendSet × Option backendSet) :=
  match cached with
  | some s => if s.Expired now then getBackendsFetch now fetch else Except.ok (s, none)
  | none => getBackendsFetch now fetch

/-- Per-request record (src/router.go lines 43-51).  The `startTime`
field of the source is a wall-clock instant used only for logging and
is not modelled. -/
structure requestData where
  backendLen : Int
  backend : String
  backendIdx : Int
  backendKey : String
  host : String
  debug : Bool
  deriving Repr, DecidableEq

/-- The slice of the Go `http.Request` state the routing core reads
and writes: `req.Host` (the client authority), `req.URL.Scheme`,
`req.URL.Host` and the request headers. -/
structure RequestState where
  host : String
  urlScheme : String
  urlHost : String
  header : List (String × String)
  deriving Repr, DecidableEq

/-- Continuation of `getRequestData` after the backend selection
(src/router.go lines 226-231): the panic propagates, the all-dead
error is returned alongside the partially filled record, and on
success the record receives the chosen index and backend URL. -/
def getRequestDataSel (req1 : RequestState) (rd1 : requestData)
    (sel : GoResult (Int × String)) : GoResult (RequestState × requestData × Option String) :=
  match sel with
  | GoResult.panic m => GoResult.panic m
  | GoResult.fail m => GoResult.ok (req1, rd1, some m)
  | GoResult.ok (idx, url) =>
    GoResult.ok (req1, { rd1 with backendIdx := idx, backend := url }, none)

/-- Continuation of `getRequestData` after the snapshot lookup
(src/router.go lines 191-231): a lookup error is returned alongside
the partially filled record (src/router.go lines 192-194), otherwise
the record receives the snapshot id and size and selection runs. -/
def getRequestDataCont (counter : Int) (req1 : RequestState) (rd0 : requestData)
    (gb : Except String (backendSet × Option backendSet)) :
    GoResult (RequestState × requestData × Option String) :=
  match gb with
  | Except.error e => GoResult.ok (req1, rd0, some e)
  | Except.ok (set, _) =>
    getRequestDataSel req1
      { rd0 with backendKey := set.id, backendLen := (set.backends.length : Int) }
      (selectBackend set.backends set.dead counter)

/-- `getRequestData` (src/router.go lines 180-232).  `splitHost`
models `net.SplitHostPort` restricted to its host result, with `""`
for the error case, matching the zero value the code reads; `counter`
is the per-host round-robin counter before the request.  Returns the
mutated request (the `X-Debug-Router` header is stripped), the request
record, and the error component of the Go `(reqData, err)` return. -/
def getRequestData (splitHost : String → String) (cached : Option backendSet) (now : Int)
    (fetch : Except String (String × List String × Finset Int)) (counter : Int)
    (req : RequestState) : GoResult (RequestState × requestData × Option String) :=
  let host0 := splitHost req.host
  let host := if host0 = "" then req.host else host0
  let reqData : requestData :=
    { backendLen := 0, backend := "", backendIdx := 0, backendKey := "",
      host := host, debug := headerGet req.header "X-Debug-Router" != "" }
  let req1 : RequestState := { req with header := headerDel req.header "X-Debug-Router" }
  getRequestDataCont counter req1 reqData (getBackends cached now fetch)

/-- The slice of the Go `http.Response` state the router constructs
and mutates: status code, header map and body.  `header = none`
models a nil `http.Header` map: the synthesized 400 response of
`RoundTripWithData` carries no `Header` field in its composite
literal, so its header map is nil. -/
structure HttpResponse where
  statusCode : Nat
  header : Option (List (String × String))
  body : String
  deriving Repr, DecidableEq

/-- Result of the upstream exchange `router.Transport.RoundTrip(req)`:
either a response, or an error, which either is a `net.Error` with the
given `Temporary()` classification or carries no network-layer
information. -/
inductive UpstreamOutcome where
  | rsp (r : HttpResponse)
  | err (isNetError : Bool) (temporary : Bool)
  deriving Repr, DecidableEq

/-- One `MarkDead` invocation on the routes backend
(src/router.go line 322). -/
structure MarkDeadCall where
  host : String
  backend : String
  idx : Int
  len : Int
  ttl : Int
  deriving Repr, DecidableEq

/-- The debug-header block of `RoundTripWithData` (src/router.go lines
337-341): under the debug flag, set the three response headers through
`rsp.Header.Set`, which panics when the header map is nil.  The
backend id is rendered as `strconv.FormatUint(uint64(idx), 10)`, so a
negative index is reinterpreted as an unsigned 64-bit value. -/
def addDebugHeaders (reqData : requestData) (r : HttpResponse) : GoResult HttpResponse :=
  if reqData.debug then
    match r.header with
    | none => GoResult.panic "assignment to entry in nil map"
    | some hs =>
      let hs1 := headerSet hs "X-Debug-Backend-Url" reqData.backend
      let hs2 := headerSet hs1 "X-Debug-Backend-Id"
        (toString ((reqData.backendIdx % 18446744073709551616).toNat))
      let hs3 := headerSet hs2 "X-Debug-Frontend-Key" reqData.host
      GoResult.ok { r with header := some hs3 }
  else GoResult.ok r

/-- Everything observable about one `RoundTripWithData` run: the
response handed to the proxy framework, whether the upstream transport
was consulted, the `MarkDead` calls issued, and the final state of the
outgoing request. -/
structure ForwardResult where
  response : GoResult HttpResponse
  upstreamCalled : Bool
  markDead : List MarkDeadCall
  finalReq : RequestState
  deriving Repr, DecidableEq

/-- `RoundTripWithData` (src/router.go lines 271-353).  `splitHost`
and `isIP` model `net.SplitHostPort` (host part, `""` on error) and
`net.ParseIP(host) != nil`; `upstream` is the answer of the transport;
`timedout` tells whether the request timer fired
(`atomic.LoadInt32` read as 1).  The logger call on lines 342-351 is
not modelled. -/
def RoundTripWithData (markingDisabled : Bool) (deadBackendTTL : Int)
    (splitHost : String → String) (isIP : String → Bool)
    (upstream : UpstreamOutcome) (timedout : Bool)
    (req : RequestState) (reqData : requestData) : ForwardResult :=
  if req.urlScheme = "" ∨ req.urlHost = "" then
    let rsp : HttpResponse := { statusCode := 400, header := none, body := "no such route" }
    { response := addDebugHeaders reqData rsp, upstreamCalled := false,
      markDead := [], finalReq := req }
  else
    let host0 := splitHost req.urlHost
    let host := if host0 = "" then req.urlHost else host0
    let req1 :=
      if isIP host then req
      else { req with header := headerSet req.header "X-Host" req.host, host := host }
    match upstream with
    | UpstreamOutcome.rsp r =>
      { response := addDebugHeaders reqData r, upstreamCalled := true,
        markDead := [], finalReq := req1 }
    | UpstreamOutcome.err isNetError temporary =>
      let markAsDead := (isNetError && !temporary) && !timedout
      let calls :=
        if markAsDead && !markingDisabled then
          [{ host := reqData.host, backend := reqData.backend, idx := reqData.backendIdx,
             len := reqData.backendLen, ttl := deadBackendTTL : MarkDeadCall }]
        else []
      let rsp : HttpResponse := { statusCode := 503, header := some [], body := "" }
      { response := addDebugHeaders reqData rsp, upstreamCalled := true,
        markDead := calls, finalReq := req1 }

/-- Continuation of `chooseBackend` after a successful resolution
(src/router.go lines 242-262): parse the backend URL (return on a
parse error, leaving the request URL blank), install scheme and host
with the bare-authority fallback, and populate the configured
request-id header when absent. -/
def chooseBackendURL (parseURL : String → Option (String × String))
    (requestIDHeader : String) (newUUID : Option String)
    (req1 : RequestState) (reqData : requestData) : GoResult (RequestState × requestData) :=
  match parseURL reqData.backend with
  | none => GoResult.ok (req1, reqData)
  | some (scheme, uhost) =>
    let req2 : RequestState := { req1 with urlScheme := scheme, urlHost := uhost }
    let req3 :=
      if req2.urlHost = "" then
        { req2 with urlScheme := "http", urlHost := reqData.backend }
      else req2
    if requestIDHeader ≠ "" ∧ headerGet req3.header requestIDHeader = "" then
      match newUUID with
      | none => GoResult.ok (req3, reqData)
      | some uid =>
        GoResult.ok ({ req3 with header := headerSet req3.header requestIDHeader uid },
          reqData)
    else GoResult.ok (req3, reqData)

/-- Continuation of `chooseBackend` on the result of `getRequestData`
(src/router.go lines 237-262): on a resolution error the request data
is returned with the URL left blank; the error is only logged. -/
def chooseBackendCont (parseURL : String → Option (String × String))
    (requestIDHeader : String) (newUUID : Option String)
    (grd : GoResult (RequestState × requestData × Option String)) :
    GoResult (RequestState × requestData) :=
  match grd with
  | GoResult.panic m => GoResult.panic m
  | GoResult.fail m => GoResult.fail m
  | GoResult.ok (req1, reqData, errOpt) =>
    match errOpt with
    | some _ => GoResult.ok (req1, reqData)
    | none => chooseBackendURL parseURL requestIDHeader newUUID req1 reqData

/-- `chooseBackend` (src/router.go lines 234-263).  `parseURL` models
`url.Parse` restricted to the scheme and host fields (`none` for a
parse error); `newUUID` models `uuid.NewV4` rendered by `String()`
(`none` for a generation error); `requestIDHeader` is the configured
request-id header name.  `getRequestData` never produces
`GoResult.fail`; that arm only keeps the match total. -/
def chooseBackend (parseURL : String → Option (String × String))
    (requestIDHeader : String) (newUUID : Option String)
    (splitHost : String → String) (cached : Option backendSet) (now : Int)
    (fetch : Except String (String × List String × Finset Int)) (counter : Int)
    (req : RequestState) : GoResult (RequestState × requestData) :=
  chooseBackendCont parseURL requestIDHeader newUUID
    (getRequestData splitHost cached now fetch counter
      { req with urlScheme := "", urlHost := "" })

/-- `RoundTrip` (src/router.go lines 265-269): `chooseBackend`
followed by `RoundTripWithData`.  A panic inside `chooseBackend`
propagates before any upstream work. -/
def RoundTrip (parseURL : String → Option (String × String))
    (requestIDHeader : String) (newUUID : Option String)
    (splitHost : String → String) (cached : Option backendSet) (now : Int)
    (fetch : Except String (String × List String × Finset Int)) (counter : Int)
    (markingDisabled : Bool) (deadBackendTTL : Int) (isIP : String → Bool)
    (upstream : UpstreamOutcome) (timedout : Bool) (req : RequestState) : ForwardResult :=
  match chooseBackend parseURL requestIDHeader newUUID splitHost cached now fetch counter req with
  | GoResult.panic m =>
    { response := GoResult.panic m, upstreamCalled := false, markDead := [], finalReq := req }
  | GoResult.fail m =>
    { response := GoResult.fail m, upstreamCalled := false, markDead := [], finalReq := req }
  | GoResult.ok (req1, reqData) =>
    RoundTripWithData markingDisabled deadBackendTTL splitHost isIP upstream timedout req1 reqData

/-- Continuation of `serveWebsocket` after a successful resolution
(src/router.go lines 360-397): parse the backend URL, set the
outgoing Host to its host component unconditionally, dial, hijack,
extend `X-Forwarded-For` and write the request upstream. -/
def serveWebsocketURL (parseURL : String → Option (String × String))
    (dialOK : Bool) (hijackOK : Bool) (clientIP : Option String)
    (req1 : RequestState) (reqData : requestData) :
    GoResult (requestData × Option RequestState) :=
  match parseURL reqData.backend with
  | none => GoResult.ok (reqData, none)
  | some (_, uhost) =>
    let req2 : RequestState := { req1 with host := uhost }
    if !dialOK then GoResult.ok (reqData, none)
    else if !hijackOK then GoResult.ok (reqData, none)
    else
      let req3 :=
        match clientIP with
        | none => req2
        | some ip =>
          let prior := headerValues req2.header "X-Forwarded-For"
          let v := if prior = [] then ip
            else String.intercalate ", " prior ++ ", " ++ ip
          { req2 with header := headerSet req2.header "X-Forwarded-For" v }
      GoResult.ok (reqData, some req3)

/-- Continuation of `serveWebsocket` on the result of `getRequestData`
(src/router.go lines 356-397). -/
def serveWebsocketCont (parseURL : String → Option (String × String))
    (dialOK : Bool) (hijackOK : Bool) (clientIP : Option String)
    (grd : GoResult (RequestState × requestData × Option String)) :
    GoResult (requestData × Option RequestState) :=
  match grd with
  | GoResult.panic m => GoResult.panic m
  | GoResult.fail m => GoResult.fail m
  | GoResult.ok (req1, reqData, errOpt) =>
    match errOpt with
    | some _ => GoResult.ok (reqData, none)
    | none => serveWebsocketURL parseURL dialOK hijackOK clientIP req1 reqData

/-- `serveWebsocket` (src/router.go lines 355-398).  `dialOK` and
`hijackOK` tell whether `dialer.Dial` and the hijack succeed;
`clientIP` is the host part of `req.RemoteAddr` when
`net.SplitHostPort` succeeds on it.  The result carries the request
state at the moment `req.Write(dstConn)` runs (`none` when an earlier
step returned before anything was written upstream). -/
def serveWebsocket (splitHost : String → String)
    (parseURL : String → Option (String × String))
    (cached : Option backendSet) (now : Int)
    (fetch : Except String (String × List String × Finset Int)) (counter : Int)
    (dialOK : Bool) (hijackOK : Bool) (clientIP : Option String)
    (req : RequestState) : GoResult (requestData × Option RequestState) :=
  serveWebsocketCont parseURL dialOK hijackOK clientIP
    (getRequestData splitHost cached now fetch counter req)

/-- C3 evaluation: a host whose snapshot has no backends does not fail
with the all-backends-dead error: the counter arithmetic
`(initialNumber - 1) % int32(0)` divides by zero, so resolution panics
instead of returning a well-defined error. -/
theorem getRequestData_no_backends_panics :
    getRequestData (fun _ => "") none 0 (Except.ok ("v1", [], ∅)) 0
        { host := "app.example", urlScheme := "", urlHost := "", header := [] } =
      GoResult.panic "integer divide by zero" := rfl

/-- C5 evaluation: a request carrying a non-empty `X-Debug-Router`
whose route resolution failed (blank URL) reaches the synthesized 400
response; its header map is nil, so `rsp.Header.Set` panics instead of
adding the three debug headers the claim requires. -/
theorem debug_noRoute_panics :
    (RoundTripWithData false 30 (fun _ => "") (fun _ => false)
        (UpstreamOutcome.err false false) false
        { host := "app.example", urlScheme := "", urlHost := "", header := [] }
        { backendLen := 0, backend := "", backendIdx := 0, backendKey := "",
          host := "app.example", debug := true }).response =
      GoResult.panic "assignment to entry in nil map" := rfl

/-- C6: on the forwarder path `MarkDead` is invoked at most once per
request, and only when the upstream exchange failed with a network
error reported as not temporary, the local request timer did not fire,
and marking is not disabled by configuration. -/
theorem markDead_at_most_once (markingDisabled : Bool) (deadBackendTTL : Int)
    (splitHost : String → String) (isIP : String → Bool)
    (upstream : UpstreamOutcome) (timedout : Bool)
    (req : RequestState) (reqData : requestData) :
    (RoundTripWithData markingDisabled deadBackendTTL splitHost isIP upstream timedout
        req reqData).markDead.length ≤ 1 ∧
      ((RoundTripWithData markingDisabled deadBackendTTL splitHost isIP upstream timedout
          req reqData).markDead ≠ [] →
        upstream = UpstreamOutcome.err true false ∧ timedout = false ∧
          markingDisabled = false) := by
  unfold RoundTripWithData
  by_cases h0 : req.urlScheme = "" ∨ req.urlHost = ""
  · simp [h0]
  · simp only [h0, if_false]
    cases upstream with
    | rsp r => simp
    | err isNetError temporary =>
      cases isNetError <;> cases temporary <;> cases timedout <;> cases markingDisabled <;> simp

/-- Witness for C6: a non-temporary network failure with the timer not
fired and marking enabled issues exactly one MarkDead call, and the
guard facts follow from `markDead_at_most_once`. -/
theorem markDead_at_most_once_witness :
    (RoundTripWithData false 30 (fun _ => "") (fun _ => true)
        (UpstreamOutcome.err true false) false
        { host := "app.example", urlScheme := "http", urlHost := "10.0.0.1:80", header := [] }
        { backendLen := 2, backend := "http://10.0.0.1:80", backendIdx := 0,
          backendKey := "v1", host := "app.example", debug := false }).markDead.length ≤ 1 ∧
      (UpstreamOutcome.err true false = UpstreamOutcome.err true false ∧ false = false ∧
        false = false) :=
  And.intro
    (markDead_at_most_once false 30 (fun _ => "") (fun _ => true)
        (UpstreamOutcome.err true false) false
        { host := "app.example", urlScheme := "http", urlHost := "10.0.0.1:80", header := [] }
        { backendLen := 2, backend := "http://10.0.0.1:80", backendIdx := 0,
          backendKey := "v1", host := "app.example", debug := false }).1
    ((markDead_at_most_once false 30 (fun _ => "") (fun _ => true)
        (UpstreamOutcome.err true false) false
        { host := "app.example", urlScheme := "http", urlHost := "10.0.0.1:80", header := [] }
        { backendLen := 2, backend := "http://10.0.0.1:80", backendIdx := 0,
          backendKey := "v1", host := "app.example", debug := false }).2 (by decide))

/-- C8: snapshot acquisition returns the cached snapshot exactly while
it is within its TTL (an expired entry is never returned); otherwise
it fetches, stamps `expires = now + 2s` and installs the fresh
snapshot into the cache; a fetch failure is surfaced as an error
without caching anything and without falling back to the expired
entry. -/
theorem getBackends_ttl (cached : Option backendSet) (now : Int)
    (fetch : Except String (String × List String × Finset Int)) :
    (∀ s, cached = some s → ¬ s.expires < now →
        getBackends cached now fetch = Except.ok (s, none)) ∧
      (∀ s, getBackends cached now fetch = Except.ok (s, none) →
        cached = some s ∧ now ≤ s.expires) ∧
      (∀ e, fetch = Except.error e →
        (cached = none ∨ ∃ s, cached = some s ∧ s.expires < now) →
        getBackends cached now fetch =
          Except.error ("error running routes backend commands: " ++ e)) ∧
      (∀ i bs dd, fetch = Except.ok (i, bs, dd) →
        (cached = none ∨ ∃ s, cached = some s ∧ s.expires < now) →
        getBackends cached now fetch =
          Except.ok ({ id := i, backends := bs, dead := dd, expires := now + 2 },
            some { id := i, backends := bs, dead := dd, expires := now + 2 })) := by
  refine ⟨?_, ?_, ?_, ?_⟩
  · intro s hc hfresh
    subst hc
    simp [getBackends, backendSet.Expired, hfresh]
  · intro s hok
    cases hc : cached with
    | none =>
      rw [hc] at hok
      simp only [getBackends, getBackendsFetch] at hok
      cases hf : fetch with
      | error e => rw [hf] at hok; simp at hok
      | ok tr =>
        obtain ⟨i, bs, dd⟩ := tr
        rw [hf] at hok
        simp at hok
    | some s0 =>
      rw [hc] at hok
      simp only [getBackends] at hok
      by_cases hexp : s0.Expired now
      · rw [if_pos hexp] at hok
        simp only [getBackendsFetch] at hok
        cases hf : fetch with
        | error e => rw [hf] at hok; simp at hok
        | ok tr =>
          obtain ⟨i, bs, dd⟩ := tr
          rw [hf] at hok
          simp at hok
      · rw [if_neg hexp] at hok
        simp only [Except.ok.injEq, Prod.mk.injEq] at hok
        have hs : s0 = s := hok.1
        subst hs
        refine ⟨rfl, ?_⟩
        simp only [backendSet.Expired, decide_eq_true_eq] at hexp
        omega
  · intro e hf hmiss
    cases hmiss with
    | inl hnone => subst hnone; simp [getBackends, getBackendsFetch, hf]
    | inr hsome =>
      obtain ⟨s, hc, hexp⟩ := hsome
      subst hc
      have : s.Expired now = true := by
        simp [backendSet.Expired, hexp]
      simp [getBackends, this, getBackendsFetch, hf]
  · intro i bs dd hf hmiss
    cases hmiss with
    | inl hnone => subst hnone; simp [getBackends, getBackendsFetch, hf]
    | inr hsome =>
      obtain ⟨s, hc, hexp⟩ := hsome
      subst hc
      have : s.Expired now = true := by
        simp [backendSet.Expired, hexp]
      simp [getBackends, this, getBackendsFetch, hf]

/-- Witness for C8: a cached snapshot whose deadline lies ahead of the
clock is returned unchanged and nothing is installed. -/
theorem getBackends_ttl_witness :
    getBackends (some { id := "v1", backends := ["http://a"], dead := ∅, expires := 10 }) 5
        (Except.error "backend down") =
      Except.ok ({ id := "v1", backends := ["http://a"], dead := ∅, expires := 10 }, none) :=
  (getBackends_ttl (some { id := "v1", backends := ["http://a"], dead := ∅, expires := 10 }) 5
      (Except.error "backend down")).1
    { id := "v1", backends := ["http://a"], dead := ∅, expires := 10 } rfl (by decide)

/-- C9: on the forwarder path with a resolved upstream, when the
upstream host is not a literal IP address the outgoing Host becomes
the upstream host and the original client authority is copied into
the X-Host header; when it is a literal IP address the outgoing
request is left untouched (both Host and X-Host unchanged). -/
theorem forwarder_host_rewrite (markingDisabled : Bool) (deadBackendTTL : Int)
    (splitHost : String → String) (isIP : String → Bool)
    (upstream : UpstreamOutcome) (timedout : Bool)
    (req : RequestState) (reqData : requestData)
    (hs : req.urlScheme ≠ "") (hh : req.urlHost ≠ "") :
    (isIP (if splitHost req.urlHost = "" then req.urlHost else splitHost req.urlHost) = false →
        (RoundTripWithData markingDisabled deadBackendTTL splitHost isIP upstream timedout
            req reqData).finalReq.host =
          (if splitHost req.urlHost = "" then req.urlHost else splitHost req.urlHost) ∧
        headerGet (RoundTripWithData markingDisabled deadBackendTTL splitHost isIP upstream
            timedout req reqData).finalReq.header "X-Host" = req.host) ∧
      (isIP (if splitHost req.urlHost = "" then req.urlHost else splitHost req.urlHost) = true →
        (RoundTripWithData markingDisabled deadBackendTTL splitHost isIP upstream timedout
            req reqData).finalReq = req) := by
  have h0 : ¬ (req.urlScheme = "" ∨ req.urlHost = "") := by
    intro h
    cases h with
    | inl h => exact hs h
    | inr h => exact hh h
  unfold RoundTripWithData
  rw [if_neg h0]
  constructor
  · intro hip
    cases upstream with
    | rsp r => simp [hip, headerGet_set_self]
    | err isNetError temporary => simp [hip, headerGet_set_self]
  · intro hip
    cases upstream with
    | rsp r => simp [hip]
    | err isNetError temporary => simp [hip]

/-- Witness for C9: a concrete non-IP upstream host; the Host is
rewritten to the upstream host and X-Host receives the original client
authority. -/
theorem forwarder_host_rewrite_witness :
    (RoundTripWithData false 30 (fun _ => "backend.internal") (fun _ => false)
        (UpstreamOutcome.rsp { statusCode := 200, header := some [], body := "" }) false
        { host := "app.example:443", urlScheme := "http", urlHost := "backend.internal:80",
          header := [] }
        { backendLen := 1, backend := "http://backend.internal:80", backendIdx := 0,
          backendKey := "v1", host := "app.example", debug := false }).finalReq.host =
        (if (fun _ : String => "backend.internal") "backend.internal:80" = ""
          then "backend.internal:80" else (fun _ : String => "backend.internal")
            "backend.internal:80") ∧
      headerGet (RoundTripWithData false 30 (fun _ => "backend.internal") (fun _ => false)
        (UpstreamOutcome.rsp { statusCode := 200, header := some [], body := "" }) false
        { host := "app.example:443", urlScheme := "http", urlHost := "backend.internal:80",
          header := [] }
        { backendLen := 1, backend := "http://backend.internal:80", backendIdx := 0,
          backendKey := "v1", host := "app.example", debug := false }).finalReq.header "X-Host" =
        "app.example:443" :=
  (forwarder_host_rewrite false 30 (fun _ => "backend.internal") (fun _ => false)
      (UpstreamOutcome.rsp { statusCode := 200, header := some [], body := "" }) false
      { host := "app.example:443", urlScheme := "http", urlHost := "backend.internal:80",
        header := [] }
      { backendLen := 1, backend := "http://backend.internal:80", backendIdx := 0,
        backendKey := "v1", host := "app.example", debug := false }
      (by decide) (by decide)).1 rfl

theorem getRequestDataSel_req (req1 : RequestState) (rd1 : requestData)
    (sel : GoResult (Int × String)) (req1x : RequestState) (rd : requestData)
    (o : Option String)
    (h : getRequestDataSel req1 rd1 sel = GoResult.ok (req1x, rd, o)) : req1x = req1 := by
  cases sel with
  | panic m =>
    simp only [getRequestDataSel] at h
    exact GoResult.noConfusion h
  | fail m =>
    simp only [getRequestDataSel] at h
    exact (congrArg (fun t => t.1) (GoResult.ok.inj h)).symm
  | ok iu =>
    obtain ⟨idx, url⟩ := iu
    simp only [getRequestDataSel] at h
    exact (congrArg (fun t => t.1) (GoResult.ok.inj h)).symm

theorem getRequestDataCont_req (counter : Int) (req1 : RequestState) (rd0 : requestData)
    (gb : Except String (backendSet × Option backendSet)) (req1x : RequestState)
    (rd : requestData) (o : Option String)
    (h : getRequestDataCont counter req1 rd0 gb = GoResult.ok (req1x, rd, o)) :
    req1x = req1 := by
  cases gb with
  | error e =>
    simp only [getRequestDataCont] at h
    exact (congrArg (fun t => t.1) (GoResult.ok.inj h)).symm
  | ok pr =>
    obtain ⟨set, inst⟩ := pr
    simp only [getRequestDataCont] at h
    exact getRequestDataSel_req _ _ _ _ _ _ h

theorem getRequestData_req_state (splitHost : String → String) (cached : Option backendSet)
    (now : Int) (fetch : Except String (String × List String × Finset Int)) (counter : Int)
    (req req1 : RequestState) (rd : requestData) (o : Option String)
    (h : getRequestData splitHost cached now fetch counter req = GoResult.ok (req1, rd, o)) :
    req1 = { req with header := headerDel req.header "X-Debug-Router" } := by
  simp only [getRequestData] at h
  exact getRequestDataCont_req _ _ _ _ _ _ _ h

theorem roundTripWithData_blank (markingDisabled : Bool) (deadBackendTTL : Int)
    (splitHost : String → String) (isIP : String → Bool)
    (upstream : UpstreamOutcome) (timedout : Bool)
    (req : RequestState) (rd : requestData)
    (hs : req.urlScheme = "") (hdbg : rd.debug = false) :
    RoundTripWithData markingDisabled deadBackendTTL splitHost isIP upstream timedout req rd =
      { response := GoResult.ok { statusCode := 400, header := none, body := "no such route" },
        upstreamCalled := false, markDead := [], finalReq := req } := by
  unfold RoundTripWithData
  rw [if_pos (Or.inl hs)]
  unfold addDebugHeaders
  simp only [hdbg, Bool.false_eq_true, if_false]

/-- C7 (amended): whenever resolution fails with an error (routes
backend lookup failure or all backends dead) or the chosen backend URL
does not parse, and the request did not carry the debug flag, the
forwarder makes no upstream call and the client receives the
synthesized 400 response with body `no such route`.  (With the debug
flag set the router instead panics while decorating the header-less
400 response; see the counterexample.) -/
theorem noRoute_synthesizes_400 (parseURL : String → Option (String × String))
    (requestIDHeader : String) (newUUID : Option String)
    (splitHost : String → String) (cached : Option backendSet) (now : Int)
    (fetch : Except String (String × List String × Finset Int)) (counter : Int)
    (markingDisabled : Bool) (deadBackendTTL : Int) (isIP : String → Bool)
    (upstream : UpstreamOutcome) (timedout : Bool) (req : RequestState) :
    (∀ req1 rd e,
        getRequestData splitHost cached now fetch counter
            { req with urlScheme := "", urlHost := "" } = GoResult.ok (req1, rd, some e) →
        rd.debug = false →
        (RoundTrip parseURL requestIDHeader newUUID splitHost cached now fetch counter
            markingDisabled deadBackendTTL isIP upstream timedout req).upstreamCalled = false ∧
          (RoundTrip parseURL requestIDHeader newUUID splitHost cached now fetch counter
            markingDisabled deadBackendTTL isIP upstream timedout req).response =
            GoResult.ok { statusCode := 400, header := none, body := "no such route" }) ∧
      (∀ req1 rd,
        getRequestData splitHost cached now fetch counter
            { req with urlScheme := "", urlHost := "" } = GoResult.ok (req1, rd, none) →
        parseURL rd.backend = none →
        rd.debug = false →
        (RoundTrip parseURL requestIDHeader newUUID splitHost cached now fetch counter
            markingDisabled deadBackendTTL isIP upstream timedout req).upstreamCalled = false ∧
          (RoundTrip parseURL requestIDHeader newUUID splitHost cached now fetch counter
            markingDisabled deadBackendTTL isIP upstream timedout req).response =
            GoResult.ok { statusCode := 400, header := none, body := "no such route" }) := by
  constructor
  · intro req1 rd e hg hdbg
    have hreq1 := getRequestData_req_state splitHost cached now fetch counter _ _ _ _ hg
    have hcb : chooseBackend parseURL requestIDHeader newUUID splitHost cached now fetch counter
        req = GoResult.ok (req1, rd) := by
      simp only [chooseBackend, hg, chooseBackendCont]
    have hs : req1.urlScheme = "" := by rw [hreq1]
    simp only [RoundTrip, hcb]
    rw [roundTripWithData_blank _ _ _ _ _ _ _ _ hs hdbg]
    exact ⟨rfl, rfl⟩
  · intro req1 rd hg hparse hdbg
    have hreq1 := getRequestData_req_state splitHost cached now fetch counter _ _ _ _ hg
    have hcb : chooseBackend parseURL requestIDHeader newUUID splitHost cached now fetch counter
        req = GoResult.ok (req1, rd) := by
      simp only [chooseBackend, hg, chooseBackendCont, chooseBackendURL, hparse]
    have hs : req1.urlScheme = "" := by rw [hreq1]
    simp only [RoundTrip, hcb]
    rw [roundTripWithData_blank _ _ _ _ _ _ _ _ hs hdbg]
    exact ⟨rfl, rfl⟩

/-- Witness for C7: a failing routes backend with no debug flag leads
to a synthesized 400 `no such route` and no upstream call. -/
theorem noRoute_synthesizes_400_witness :
    (RoundTrip (fun _ => none) "" none (fun _ => "") none 0 (Except.error "backend down") 0
        false 30 (fun _ => false) (UpstreamOutcome.err false false) false
        { host := "app.example", urlScheme := "", urlHost := "", header := [] }).upstreamCalled
        = false ∧
      (RoundTrip (fun _ => none) "" none (fun _ => "") none 0 (Except.error "backend down") 0
        false 30 (fun _ => false) (UpstreamOutcome.err false false) false
        { host := "app.example", urlScheme := "", urlHost := "", header := [] }).response =
        GoResult.ok { statusCode := 400, header := none, body := "no such route" } :=
  (noRoute_synthesizes_400 (fun _ => none) "" none (fun _ => "") none 0
      (Except.error "backend down") 0 false 30 (fun _ => false)
      (UpstreamOutcome.err false false) false
      { host := "app.example", urlScheme := "", urlHost := "", header := [] }).1
    { host := "app.example", urlScheme := "", urlHost := "", header := [] }
    { backendLen := 0, backend := "", backendIdx := 0, backendKey := "",
      host := "app.example", debug := false }
    "error running routes backend commands: backend down" (by rfl) (by rfl)

/-- Counterexample to C7 as stated: the same failing resolution, but
the request carries a non-empty `X-Debug-Router`; instead of receiving
the synthesized 400 response the client-facing path panics while
adding the debug headers to the header-less 400 response. -/
theorem noRoute_debug_request_panics :
    (RoundTrip (fun _ => none) "" none (fun _ => "") none 0 (Except.error "backend down") 0
        false 30 (fun _ => false) (UpstreamOutcome.err false false) false
        { host := "app.example", urlScheme := "", urlHost := "",
          header := [("X-Debug-Router", "1")] }).response =
      GoResult.panic "assignment to entry in nil map" := rfl

/-- C10: on the websocket path, whenever the upgrade request is
written upstream, its Host is the host component of the parsed backend
URL, unconditionally (no literal-IP test is involved), and the X-Host
header of the written request is exactly the X-Host of the incoming
request: this path never sets X-Host, unlike the IP-conditional
rewriting of the forwarder. -/
theorem websocket_host_unconditional (splitHost : String → String)
    (parseURL : String → Option (String × String))
    (cached : Option backendSet) (now : Int)
    (fetch : Except String (String × List String × Finset Int)) (counter : Int)
    (dialOK hijackOK : Bool) (clientIP : Option String)
    (req : RequestState) (reqData : requestData) (written : RequestState)
    (hok : serveWebsocket splitHost parseURL cached now fetch counter dialOK hijackOK clientIP
        req = GoResult.ok (reqData, some written)) :
    (∃ scheme, parseURL reqData.backend = some (scheme, written.host)) ∧
      headerGet written.header "X-Host" = headerGet req.header "X-Host" := by
  simp only [serveWebsocket] at hok
  cases hgrd : getRequestData splitHost cached now fetch counter req with
  | panic m =>
    rw [hgrd] at hok
    simp only [serveWebsocketCont] at hok
    exact GoResult.noConfusion hok
  | fail m =>
    rw [hgrd] at hok
    simp only [serveWebsocketCont] at hok
    exact GoResult.noConfusion hok
  | ok tr =>
    obtain ⟨req1, rd0, errOpt⟩ := tr
    have hreq1 : req1 = { req with header := headerDel req.header "X-Debug-Router" } :=
      getRequestData_req_state _ _ _ _ _ _ _ _ _ hgrd
    rw [hgrd] at hok
    cases errOpt with
    | some e =>
      simp only [serveWebsocketCont] at hok
      exact Option.noConfusion (congrArg (fun t => t.2) (GoResult.ok.inj hok))
    | none =>
      simp only [serveWebsocketCont] at hok
      cases hp : parseURL rd0.backend with
      | none =>
        simp only [serveWebsocketURL, hp] at hok
        exact Option.noConfusion (congrArg (fun t => t.2) (GoResult.ok.inj hok))
      | some pr =>
        obtain ⟨scheme, uhost⟩ := pr
        cases dialOK with
        | false =>
          simp [serveWebsocketURL, hp] at hok
        | true =>
          cases hijackOK with
          | false =>
            simp [serveWebsocketURL, hp] at hok
          | true =>
            simp only [serveWebsocketURL, hp, Bool.not_true, Bool.false_eq_true, if_false,
              GoResult.ok.injEq, Prod.mk.injEq, Option.some.injEq] at hok
            obtain ⟨hrd, hw⟩ := hok
            cases clientIP with
            | none =>
              subst hw
              constructor
              · refine ⟨scheme, ?_⟩
                rw [← hrd]
                exact hp
              · simp only [hreq1]
                exact headerGet_del_other _ _ _ (by decide)
            | some ip =>
              subst hw
              constructor
              · refine ⟨scheme, ?_⟩
                rw [← hrd]
                exact hp
              · have h1 : headerGet (headerSet ({ req1 with host := uhost } : RequestState).header
                    "X-Forwarded-For"
                    (if headerValues ({ req1 with host := uhost } : RequestState).header
                        "X-Forwarded-For" = [] then ip
                      else String.intercalate ", " (headerValues
                        ({ req1 with host := uhost } : RequestState).header "X-Forwarded-For")
                        ++ ", " ++ ip)) "X-Host" =
                    headerGet req1.header "X-Host" :=
                  headerGet_set_other _ _ _ _ (by decide)
                refine Eq.trans h1 ?_
                simp only [hreq1]
                exact headerGet_del_other _ _ _ (by decide)

/-- Witness for C10: a concrete upgrade request that reaches the
upstream write; the written request has the upstream Host
`10.0.0.7:80` (a literal IP with port) and no X-Host header. -/
theorem websocket_host_unconditional_witness :
    (∃ scheme, (fun _ : String => some ("http", "10.0.0.7:80"))
        "http://10.0.0.7:80" = some (scheme,
          ({ host := "10.0.0.7:80", urlScheme := "", urlHost := "",
             header := [("X-Forwarded-For", "203.0.113.5")] } : RequestState).host)) ∧
      headerGet ({ host := "10.0.0.7:80", urlScheme := "", urlHost := "",
                   header := [("X-Forwarded-For", "203.0.113.5")] } : RequestState).header
          "X-Host" =
        headerGet ([] : List (String × String)) "X-Host" :=
  websocket_host_unconditional (fun _ => "") (fun _ => some ("http", "10.0.0.7:80")) none 0
    (Except.ok ("v1", ["http://10.0.0.7:80"], ∅)) 0 true true (some "203.0.113.5")
    { host := "app.example", urlScheme := "", urlHost := "", header := [] }
    { backendLen := 1, backend := "http://10.0.0.7:80", backendIdx := 0, backendKey := "v1",
      host := "app.example", debug := false }
    { host := "10.0.0.7:80", urlScheme := "", urlHost := "",
      header := [("X-Forwarded-For", "203.0.113.5")] }
    (by rfl)
